import Mathlib

/-!
Shallow embedding of the notification server (`src/app.js`, `src/config.js`).

The mutable JavaScript `Map`s (`httpLimits`, `socketRateLimits`) are modelled
as association lists threaded through each handler; the MySQL tables
`notifications` and `connection_logs` are modelled as lists of rows appended
in insertion order; `Date.now()` / `NOW()` are an explicit `now : Nat`
argument (milliseconds).  Handlers return, besides the new state, the ordered
list of externally visible effects (socket emits, SQL inserts/updates) they
perform, in the order the code performs them.
-/

namespace NotifServer

/-- A row of the `notifications` table
(`id, sender_id, recipient_id, message, socket_id, created_at, delivered_at`). -/
structure Notification where
  id : Nat
  sender_id : String
  recipient_id : String
  message : String
  socket_id : Option String
  created_at : Nat
  delivered_at : Option Nat
deriving Repr, DecidableEq

/-- A row of the `connection_logs` table
(`socket_id, user_id, connected_at, disconnected_at`). -/
structure ConnectionLog where
  socket_id : String
  user_id : String
  connected_at : Nat
  disconnected_at : Option Nat
deriving Repr, DecidableEq

/-- The MySQL database state: both tables, plus the auto-increment counter
for `notifications.id`. -/
structure Db where
  notifications : List Notification
  connection_logs : List ConnectionLog
  nextId : Nat
deriving Repr, DecidableEq

/-- `httpLimits` map entry: `{ count, resetTime }` (app.js:38-42). -/
structure HttpEntry where
  count : Nat
  resetTime : Nat
deriving Repr, DecidableEq

/-- `socketRateLimits` map entry: `{ timestamp, count }` (app.js:132-136). -/
structure SocketEntry where
  timestamp : Nat
  count : Nat
deriving Repr, DecidableEq

/-- Lookup in a JavaScript `Map` modelled as an association list
(`Map.get` / `Map.has`). -/
def lookupEntry {α : Type} (l : List (String × α)) (k : String) : Option α :=
  (l.find? (fun p => p.fst == k)).map (·.snd)

/-- `Map.set`: replace the entry for `k` in place, or append it. -/
def setEntry {α : Type} : List (String × α) → String → α → List (String × α)
  | [], k, v => [(k, v)]
  | (k', v') :: rest, k, v =>
      if k' == k then (k, v) :: rest else (k', v') :: setEntry rest k v

/-- `Map.delete`: remove the entry for `k`. -/
def eraseEntry {α : Type} : List (String × α) → String → List (String × α)
  | [], _ => []
  | (k', v') :: rest, k =>
      if k' == k then eraseEntry rest k else (k', v') :: eraseEntry rest k

/-- Result of the custom HTTP rate limiter middleware: either `next()` or the
429 response `{ error, retryAfter }` (app.js:56-61). -/
inductive HttpLimiterResult where
  | next
  | tooMany (retryAfter : Nat)
deriving Repr, DecidableEq

/-- `httpRateLimiter` (app.js:32-66), parameterised by the configuration
values `config.rateLimiting.http.window` (minutes) and
`config.rateLimiting.http.max`.  `Math.ceil(x / 1000)` on the nonnegative
difference `resetTime - now` is `(resetTime - now + 999) / 1000` on `Nat`. -/
def httpRateLimiter (window maxRequests : Nat) (ip : String) (now : Nat)
    (httpLimits : List (String × HttpEntry)) :
    List (String × HttpEntry) × HttpLimiterResult :=
  let windowMs := window * 60 * 1000
  match lookupEntry httpLimits ip with
  | none => (setEntry httpLimits ip ⟨1, now + windowMs⟩, .next)
  | some userLimit =>
    if userLimit.resetTime < now then
      -- now > userLimit.resetTime: reset counter, window has passed
      (setEntry httpLimits ip ⟨1, now + windowMs⟩, .next)
    else if maxRequests ≤ userLimit.count then
      (httpLimits, .tooMany ((userLimit.resetTime - now + 999) / 1000))
    else
      (setEntry httpLimits ip ⟨userLimit.count + 1, userLimit.resetTime⟩, .next)

/-- Result of the Socket.IO rate-limit middleware: `next()` or
`next(new Error(msg))` (app.js:156). -/
inductive SocketLimiterResult where
  | next
  | err (msg : String)
deriving Repr, DecidableEq

/-- The Socket.IO rate-limiting middleware body (app.js:129-162),
parameterised by `config.rateLimiting.socket.points` and
`config.rateLimiting.socket.duration` (seconds).  In JavaScript the reset
test `currentTime - userLimit.timestamp > timeWindow` is false whenever
`currentTime ≤ userLimit.timestamp`; truncated `Nat` subtraction gives the
same outcome. -/
def socketRateLimit (points duration : Nat) (userId : String) (now : Nat)
    (socketRateLimits : List (String × SocketEntry)) :
    List (String × SocketEntry) × SocketLimiterResult :=
  match lookupEntry socketRateLimits userId with
  | none => (setEntry socketRateLimits userId ⟨now, 1⟩, .next)
  | some userLimit =>
    let timeWindow := duration * 1000
    if timeWindow < now - userLimit.timestamp then
      (setEntry socketRateLimits userId ⟨now, 1⟩, .next)
    else if points ≤ userLimit.count then
      (socketRateLimits, .err "Too many requests, please try again later")
    else
      (setEntry socketRateLimits userId
        ⟨userLimit.timestamp, userLimit.count + 1⟩, .next)

/-- Key selection of the socket middleware:
`socket.handshake.auth?.userId || socket.id` (app.js:130); the empty string
is falsy in JavaScript. -/
def rateLimitKey (authUserId : Option String) (socketId : String) : String :=
  match authUserId with
  | some u => if u = "" then socketId else u
  | none => socketId

/-- Payload of a live `new_notification` emit:
`{ message, senderId, timestamp }` (app.js:200-204, 257-261). -/
structure PushPayload where
  message : String
  senderId : String
  timestamp : Nat
deriving Repr, DecidableEq

/-- Externally visible side effects a handler performs, in program order:
socket emits, the `INSERT INTO notifications`, the
`UPDATE notifications SET delivered_at` of the replay loop, and
`socket.join`. -/
inductive Effect where
  | joinChannel (channel : String)
  | emitToSocket (n : Notification)
  | emitToChannel (channel : String) (p : PushPayload)
  | insertNotification (n : Notification)
  | updateDelivered (id : Nat) (at' : Nat)
deriving Repr, DecidableEq

/-- `SELECT * FROM notifications WHERE recipient_id = ? AND delivered_at IS
NULL` (app.js:171-175); the table rows are kept in insertion order and a
select without `ORDER BY` is modelled as returning them in that order. -/
def fetchUndelivered (notifs : List Notification) (recipientId : String) :
    List Notification :=
  notifs.filter (fun n => n.recipient_id == recipientId && n.delivered_at == none)

/-- `UPDATE notifications SET delivered_at = NOW() WHERE id = ?`
(app.js:179-183): unconditional for every row matching the id. -/
def markDelivered (notifs : List Notification) (id now : Nat) :
    List Notification :=
  notifs.map (fun n => if n.id = id then { n with delivered_at := some now } else n)

/-- The `undelivered.forEach` replay loop (app.js:177-184): for each fetched
row, emit it to this socket, then issue the `UPDATE` setting its
`delivered_at`. -/
def replayLoop (now : Nat) :
    List Notification → List Notification → List Notification × List Effect
  | notifs, [] => (notifs, [])
  | notifs, n :: rest =>
      ((replayLoop now (markDelivered notifs n.id now) rest).fst,
       .emitToSocket n :: .updateDelivered n.id now ::
         (replayLoop now (markDelivered notifs n.id now) rest).snd)

/-- The `io.on("connection")` handler body up to event registration
(app.js:165-187): join the channel `user_<id>`, fetch the undelivered rows
for this user, and replay them.  No row is ever inserted into
`connection_logs` here. -/
def onConnection (db : Db) (userId : String) (now : Nat) :
    Db × List Effect :=
  let undelivered := fetchUndelivered db.notifications userId
  ({ db with
      notifications := (replayLoop now db.notifications undelivered).fst },
   .joinChannel ("user_" ++ userId) ::
     (replayLoop now db.notifications undelivered).snd)

/-- Acknowledgement passed to the `send_notification` callback
(app.js:196,214,217). -/
inductive Ack where
  | errorAck (msg : String)
  | successAck
deriving Repr, DecidableEq

/-- JavaScript falsiness of `data.recipientId` / `data.message`
(app.js:195): absent or the empty string. -/
def falsyStr : Option String → Bool
  | none => true
  | some s => s == ""

/-- The `socket.on("send_notification")` handler (app.js:190-219).
`insertFails` models the `INSERT` promise rejecting, which lands in the
`catch` after the emit has already happened.  On the success path the new
row is appended with `delivered_at` absent and `socket_id` set. -/
def sendNotification (db : Db) (senderUserId socketId : String)
    (recipientId message : Option String) (now : Nat) (insertFails : Bool) :
    Db × List Effect × Ack :=
  if falsyStr recipientId || falsyStr message then
    (db, [], .errorAck "Missing required fields")
  else
    let r := recipientId.getD ""
    let m := message.getD ""
    let emitEff := Effect.emitToChannel ("user_" ++ r) ⟨m, senderUserId, now⟩
    if insertFails then
      (db, [emitEff], .errorAck "Internal server error")
    else
      let row : Notification :=
        ⟨db.nextId, senderUserId, r, m, some socketId, now, none⟩
      ({ db with notifications := db.notifications ++ [row],
                 nextId := db.nextId + 1 },
       [emitEff, .insertNotification row], .successAck)

/-- A send event arriving on an already-established (active) connection:
app.js registers `socket.on("send_notification", ...)` with no rate-limiter
involvement, so the handler neither reads nor writes `socketRateLimits`. -/
def handleSendEvent (socketRateLimits : List (String × SocketEntry)) (db : Db)
    (senderUserId socketId : String) (recipientId message : Option String)
    (now : Nat) (insertFails : Bool) :
    List (String × SocketEntry) × (Db × List Effect × Ack) :=
  (socketRateLimits,
   sendNotification db senderUserId socketId recipientId message now insertFails)

/-- The `socket.on("disconnect")` handler (app.js:222-237): inside one
`try`, first `await` the `UPDATE connection_logs SET disconnected_at = NOW()
WHERE socket_id = ?`, then `socketRateLimits.delete(socket.user.id)`.  If the
awaited query rejects (`updateFails`), control jumps to the `catch` and the
delete is never executed. -/
def onDisconnect (db : Db) (verifiedUserId socketId : String) (now : Nat)
    (socketRateLimits : List (String × SocketEntry)) (updateFails : Bool) :
    Db × List (String × SocketEntry) :=
  if updateFails then
    (db, socketRateLimits)
  else
    ({ db with connection_logs := db.connection_logs.map (fun l =>
        if l.socket_id = socketId then { l with disconnected_at := some now }
        else l) },
     eraseEntry socketRateLimits verifiedUserId)

/-- Connection admission: the JWT middleware (app.js:112-123, modelled by its
outcome `verified : Option String`, the decoded `user.id`) followed by the
socket rate-limit middleware (app.js:129-162).  Returns the updated limiter
map and the admitted user id, or `none` when either middleware called
`next(err)`. -/
def connectionAdmission (points duration : Nat) (verified : Option String)
    (authUserId : Option String) (socketId : String) (now : Nat)
    (socketRateLimits : List (String × SocketEntry)) :
    List (String × SocketEntry) × Option String :=
  match verified with
  | none => (socketRateLimits, none)
  | some uid =>
      ((socketRateLimit points duration (rateLimitKey authUserId socketId)
          now socketRateLimits).fst,
       match (socketRateLimit points duration (rateLimitKey authUserId socketId)
          now socketRateLimits).snd with
       | .next => some uid
       | .err _ => none)

/-- Body of a `POST /webhook/notify` request; each field is absent or a
string (non-string JSON values are out of scope of the claims). -/
structure WebhookBody where
  recipientId : Option String
  message : Option String
  apiKey : Option String
deriving Repr, DecidableEq

/-- JavaScript `String.prototype.trim` / the express-validator `trim()`
sanitizer: strip leading and trailing whitespace (kernel-computable
counterpart of `String.trim`). -/
def trimStr (s : String) : String :=
  String.mk (((s.data.dropWhile (·.isWhitespace)).reverse.dropWhile
    (·.isWhitespace)).reverse)

/-- `validator.isAlphanumeric` (en-US locale): one or more ASCII letters or
digits. -/
def isAlphanumericStr (s : String) : Bool :=
  !s.data.isEmpty && s.data.all (fun c => c.isAlpha || c.isDigit)

/-- The validation chain of `POST /webhook/notify` (app.js:244-246):
`body("recipientId").isAlphanumeric().isLength({min:8,max:64})`,
`body("message").isString().trim().isLength({max:500})`,
`body("apiKey").equals(WEBHOOK_API_KEY)`.  Each failing validator
contributes one entry to `validationResult(req)`; a missing field fails its
validators. -/
def webhookErrors (cfgApiKey : String) (b : WebhookBody) : List String :=
  (match b.recipientId with
   | some r =>
      (if isAlphanumericStr r then [] else ["recipientId: Invalid value"]) ++
      (if 8 ≤ r.length && r.length ≤ 64 then [] else ["recipientId: Invalid value"])
   | none => ["recipientId: Invalid value", "recipientId: Invalid value"]) ++
  (match b.message with
   | some m => if (trimStr m).length ≤ 500 then [] else ["message: Invalid value"]
   | none => ["message: Invalid value", "message: Invalid value"]) ++
  (match b.apiKey with
   | some k => if k = cfgApiKey then [] else ["apiKey: Invalid value"]
   | none => ["apiKey: Invalid value"])

/-- HTTP responses the modelled routes can produce. -/
inductive HttpResponse where
  | success200
  | validation400 (errors : List String)
  | serverError500
  | tooMany429 (retryAfter : Nat)
  | health200
  | notFound404
deriving Repr, DecidableEq

/-- The `POST /webhook/notify` handler (app.js:241-276), parameterised by
the configured `WEBHOOK_API_KEY`.  On validation errors it returns 400 with
the error list before anything else runs; on success it emits to the
recipient channel with sender `"system"`, then inserts the row (with the
trimmed message, `socket_id` absent, `delivered_at` absent).  `insertFails`
models the `INSERT` rejecting, reaching the `catch` after the emit. -/
def webhookNotify (cfgApiKey : String) (db : Db) (b : WebhookBody)
    (now : Nat) (insertFails : Bool) : Db × List Effect × HttpResponse :=
  let errors := webhookErrors cfgApiKey b
  if errors.isEmpty then
    let r := b.recipientId.getD ""
    let m := trimStr (b.message.getD "")
    let emitEff := Effect.emitToChannel ("user_" ++ r) ⟨m, "system", now⟩
    if insertFails then
      (db, [emitEff], .serverError500)
    else
      let row : Notification := ⟨db.nextId, "system", r, m, none, now, none⟩
      ({ db with notifications := db.notifications ++ [row],
                 nextId := db.nextId + 1 },
       [emitEff, .insertNotification row], .success200)
  else
    (db, [], .validation400 errors)

/-- Character-list prefix test (kernel-computable `String.startsWith`). -/
def strStartsWith (s p : String) : Bool :=
  p.data.isPrefixOf s.data

/-- Whether `app.use("/api/", httpRateLimiter)` (app.js:69) applies to a
request path: Express mounts at `/api/`, matching `/api` and any path under
`/api/`. -/
def httpLimiterApplies (path : String) : Bool :=
  path == "/api" || strStartsWith path "/api/"

/-- One inbound HTTP request through the Express pipeline: the rate limiter
runs first exactly when the path is under its `/api/` mount point; then the
request is routed to `POST /webhook/notify` (app.js:241) or `GET /health`
(app.js:279). -/
def handleHttpRequest (window maxReq : Nat) (cfgApiKey : String) (db : Db)
    (httpLimits : List (String × HttpEntry)) (ip path : String)
    (b : WebhookBody) (now : Nat) (insertFails : Bool) :
    List (String × HttpEntry) × Db × List Effect × HttpResponse :=
  let step :=
    if httpLimiterApplies path then httpRateLimiter window maxReq ip now httpLimits
    else (httpLimits, .next)
  match step.snd with
  | .tooMany ra => (step.fst, db, [], .tooMany429 ra)
  | .next =>
      if path == "/webhook/notify" then
        (step.fst, (webhookNotify cfgApiKey db b now insertFails).fst,
         (webhookNotify cfgApiKey db b now insertFails).snd.fst,
         (webhookNotify cfgApiKey db b now insertFails).snd.snd)
      else if path == "/health" then
        (step.fst, db, [], .health200)
      else
        (step.fst, db, [], .notFound404)

/-- Rows the replay considered "received": the `emitToSocket` effects, in
order. -/
def emittedRows (effs : List Effect) : List Notification :=
  effs.filterMap (fun e => match e with
    | .emitToSocket n => some n
    | _ => none)

/-- Ids passed to the replay `UPDATE`, in order. -/
def updateCalls (effs : List Effect) : List Nat :=
  effs.filterMap (fun e => match e with
    | .updateDelivered i _ => some i
    | _ => none)

/-- Whether the effect list contains an `INSERT INTO notifications` at an
earlier position than some `new_notification` channel emit. -/
def insertBeforeEmit (effs : List Effect) : Bool :=
  match effs with
  | [] => false
  | .insertNotification _ :: rest =>
      rest.any (fun e => match e with | .emitToChannel _ _ => true | _ => false)
  | _ :: rest => insertBeforeEmit rest

/-- Open `connection_logs` rows (disconnected-at absent) for a connection
identifier. -/
def openLogsFor (logs : List ConnectionLog) (socketId : String) :
    List ConnectionLog :=
  logs.filter (fun l => l.socket_id == socketId && l.disconnected_at == none)

/-- A sequence of HTTP requests from one origin hitting `httpRateLimiter`
at the given times, threading the `httpLimits` map. -/
def httpRun (window maxReq : Nat) (ip : String)
    (limits : List (String × HttpEntry)) :
    List Nat → List (String × HttpEntry) × List HttpLimiterResult
  | [] => (limits, [])
  | t :: ts =>
      ((httpRun window maxReq ip
          (httpRateLimiter window maxReq ip t limits).fst ts).fst,
       (httpRateLimiter window maxReq ip t limits).snd ::
         (httpRun window maxReq ip
           (httpRateLimiter window maxReq ip t limits).fst ts).snd)

/-- A sequence of admissions for one identity hitting the socket
rate-limit middleware at the given times, threading `socketRateLimits`. -/
def socketRun (points duration : Nat) (uid : String)
    (limits : List (String × SocketEntry)) :
    List Nat → List (String × SocketEntry) × List SocketLimiterResult
  | [] => (limits, [])
  | t :: ts =>
      ((socketRun points duration uid
          (socketRateLimit points duration uid t limits).fst ts).fst,
       (socketRateLimit points duration uid t limits).snd ::
         (socketRun points duration uid
           (socketRateLimit points duration uid t limits).fst ts).snd)

/-- Rows of `notifs` with each id in `ids` marked delivered at `now`:
the cumulative result of the replay loop's `UPDATE`s. -/
def markAll (notifs : List Notification) (ids : List Nat) (now : Nat) :
    List Notification :=
  notifs.map (fun n => if n.id ∈ ids then { n with delivered_at := some now } else n)

lemma lookupEntry_setEntry_self {α : Type} (l : List (String × α)) (k : String)
    (v : α) : lookupEntry (setEntry l k v) k = some v := by
  induction l with
  | nil => simp [setEntry, lookupEntry]
  | cons p rest ih =>
      obtain ⟨k', v'⟩ := p
      by_cases h : k' = k
      · simp [setEntry, h, lookupEntry]
      · simpa [setEntry, h, lookupEntry] using ih

lemma lookupEntry_eraseEntry_self {α : Type} (l : List (String × α))
    (k : String) : lookupEntry (eraseEntry l k) k = none := by
  induction l with
  | nil => simp [eraseEntry, lookupEntry]
  | cons p rest ih =>
      obtain ⟨k', v'⟩ := p
      by_cases h : k' = k
      · simpa [eraseEntry, h, lookupEntry] using ih
      · simpa [eraseEntry, h, lookupEntry] using ih

lemma emittedRows_cons (e : Effect) (effs : List Effect) :
    emittedRows (e :: effs)
      = (match e with
         | .emitToSocket n => [n]
         | _ => []) ++ emittedRows effs := by
  cases e <;> simp [emittedRows, List.filterMap_cons]

lemma updateCalls_cons (e : Effect) (effs : List Effect) :
    updateCalls (e :: effs)
      = (match e with
         | .updateDelivered i _ => [i]
         | _ => []) ++ updateCalls effs := by
  cases e <;> simp [updateCalls, List.filterMap_cons]

lemma emittedRows_replayLoop (now : Nat) (l notifs : List Notification) :
    emittedRows (replayLoop now notifs l).snd = l := by
  induction l generalizing notifs with
  | nil => rfl
  | cons n rest ih => simp [replayLoop, emittedRows_cons, ih]

lemma updateCalls_replayLoop (now : Nat) (l notifs : List Notification) :
    updateCalls (replayLoop now notifs l).snd = l.map (·.id) := by
  induction l generalizing notifs with
  | nil => rfl
  | cons n rest ih => simp [replayLoop, updateCalls_cons, ih]

lemma markAll_nil (notifs : List Notification) (now : Nat) :
    markAll notifs [] now = notifs := by
  simp [markAll]

lemma markAll_markDelivered (notifs : List Notification) (i : Nat)
    (ids : List Nat) (now : Nat) :
    markAll (markDelivered notifs i now) ids now = markAll notifs (i :: ids) now := by
  simp only [markAll, markDelivered, List.map_map]
  refine List.map_congr_left ?_
  intro x _
  by_cases h : x.id = i
  · by_cases h2 : x.id ∈ ids <;> simp [Function.comp, h, h2]
  · by_cases h2 : x.id ∈ ids <;> simp [Function.comp, h, h2]

lemma replayLoop_fst (now : Nat) (l notifs : List Notification) :
    (replayLoop now notifs l).fst = markAll notifs (l.map (·.id)) now := by
  induction l generalizing notifs with
  | nil => simp [replayLoop, markAll_nil]
  | cons n rest ih => simp [replayLoop, ih, markAll_markDelivered]

lemma fetchUndelivered_markAll (notifs : List Notification) (ids : List Nat)
    (r : String) (now : Nat)
    (H : ∀ x ∈ notifs, x.recipient_id = r → x.delivered_at = none → x.id ∈ ids) :
    fetchUndelivered (markAll notifs ids now) r = [] := by
  induction notifs with
  | nil => rfl
  | cons x xs ih =>
      have hx := H x (by simp)
      have hxs : ∀ y ∈ xs, y.recipient_id = r → y.delivered_at = none → y.id ∈ ids :=
        fun y hy => H y (by simp [hy])
      have tail := ih hxs
      by_cases hmem : x.id ∈ ids
      · simpa [markAll, fetchUndelivered, hmem, List.filter_cons] using tail
      · have hnone : ¬(x.recipient_id = r ∧ x.delivered_at = none) := by
          rintro ⟨h1, h2⟩
          exact hmem (hx h1 h2)
        by_cases h1 : x.recipient_id = r
        · have h2 : x.delivered_at ≠ none := fun hc => hnone ⟨h1, hc⟩
          simpa [markAll, fetchUndelivered, hmem, List.filter_cons, h1, h2]
            using tail
        · simpa [markAll, fetchUndelivered, hmem, List.filter_cons, h1]
            using tail

lemma onConnection_emitted (db : Db) (r : String) (now : Nat) :
    emittedRows (onConnection db r now).snd = fetchUndelivered db.notifications r := by
  simp [onConnection, emittedRows_cons, emittedRows_replayLoop]

lemma onConnection_updateCalls (db : Db) (r : String) (now : Nat) :
    updateCalls (onConnection db r now).snd
      = (fetchUndelivered db.notifications r).map (·.id) := by
  simp [onConnection, updateCalls_cons, updateCalls_replayLoop]

lemma onConnection_notifications (db : Db) (r : String) (now : Nat) :
    ((onConnection db r now).fst).notifications
      = markAll db.notifications ((fetchUndelivered db.notifications r).map (·.id)) now := by
  simp [onConnection, replayLoop_fst]

lemma fetchUndelivered_after_onConnection (db : Db) (r : String) (now : Nat) :
    fetchUndelivered ((onConnection db r now).fst).notifications r = [] := by
  rw [onConnection_notifications]
  refine fetchUndelivered_markAll _ _ _ _ ?_
  intro x hx h1 h2
  refine List.mem_map.mpr ⟨x, ?_, rfl⟩
  simp [fetchUndelivered, List.mem_filter, hx, h1, h2]

/-- Claim C3, counterexample: `markDelivered` is not idempotent.  Applied to
a row whose delivery timestamp is already set (to 5), a repeated call with a
later clock (7) overwrites the timestamp instead of being a no-op: the
`UPDATE notifications SET delivered_at = NOW() WHERE id = ?` carries no
`delivered_at IS NULL` guard. -/
theorem c3_markDelivered_overwrites :
    markDelivered [⟨1, "a", "u2", "hi", none, 0, some 5⟩] 1 7
      = [⟨1, "a", "u2", "hi", none, 0, some 7⟩]
    ∧ markDelivered [⟨1, "a", "u2", "hi", none, 0, some 5⟩] 1 7
      ≠ [⟨1, "a", "u2", "hi", none, 0, some 5⟩] := by
  decide

/-- Claim C3, amended: `markDelivered` sets the delivery timestamp of every
row with the given id to the supplied time unconditionally (a repeated call
overwrites rather than no-ops), leaves every other row unchanged, and along
the replay path it is invoked only for ids of rows whose delivery timestamp
is absent, so a single sequential replay sets each row's timestamp at most
once. -/
theorem c3_markDelivered_unconditional (notifs : List Notification)
    (x : Notification) (i now : Nat) (db : Db) (r : String) (j : Nat)
    (hx : x ∈ markDelivered notifs i now)
    (hj : j ∈ updateCalls (onConnection db r now).snd) :
    (x.id = i → x.delivered_at = some now)
    ∧ (x.id ≠ i → x ∈ notifs)
    ∧ ∃ n ∈ db.notifications, n.id = j ∧ n.delivered_at = none := by
  refine ⟨?_, ?_, ?_⟩
  · intro hxi
    simp only [markDelivered, List.mem_map] at hx
    rcases hx with ⟨y, hy, rfl⟩
    by_cases h : y.id = i
    · simp [h]
    · exfalso
      simp [h] at hxi
  · intro hxi
    simp only [markDelivered, List.mem_map] at hx
    rcases hx with ⟨y, hy, rfl⟩
    by_cases h : y.id = i
    · exfalso
      simp [h] at hxi
    · simpa [h] using hy
  · rw [onConnection_updateCalls] at hj
    rcases List.mem_map.mp hj with ⟨n, hn, rfl⟩
    simp only [fetchUndelivered, List.mem_filter, Bool.and_eq_true,
      beq_iff_eq] at hn
    exact ⟨n, hn.1, rfl, hn.2.2⟩

/-- Claim C3, witness: the amended theorem applied to a concrete marked row
and a concrete replay update. -/
theorem c3_markDelivered_unconditional_witness :
    (⟨1, "a", "u2", "hi", none, 0, some 7⟩ : Notification)
      ∈ markDelivered [⟨1, "a", "u2", "hi", none, 0, some 5⟩] 1 7
    ∧ 3 ∈ updateCalls
        (onConnection ⟨[⟨3, "b", "u2", "m", none, 2, none⟩], [], 4⟩ "u2" 7).snd
    ∧ ((⟨1, "a", "u2", "hi", none, 0, some 7⟩ : Notification).id = 1 →
        (⟨1, "a", "u2", "hi", none, 0, some 7⟩ : Notification).delivered_at = some 7)
    ∧ ∃ n ∈ (⟨[⟨3, "b", "u2", "m", none, 2, none⟩], [], 4⟩ : Db).notifications,
        n.id = 3 ∧ n.delivered_at = none := by
  have h := c3_markDelivered_unconditional
    [⟨1, "a", "u2", "hi", none, 0, some 5⟩]
    ⟨1, "a", "u2", "hi", none, 0, some 7⟩ 1 7
    ⟨[⟨3, "b", "u2", "m", none, 2, none⟩], [], 4⟩ "u2" 3
    (by decide) (by decide)
  exact ⟨by decide, by decide, h.1, h.2.2⟩

/-- Claim C4: no ConnectionRecord is ever created.  The connection handler
leaves `connection_logs` untouched for every admission (there is no
`INSERT INTO connection_logs` in the code), so after admitting a connection
on an empty database there are zero open records — not exactly one — and
the disconnect-time `UPDATE` matches no rows. -/
theorem c4_no_connection_record_opened :
    (∀ (db : Db) (u : String) (now : Nat),
      ((onConnection db u now).fst).connection_logs = db.connection_logs)
    ∧ openLogsFor (((onConnection ⟨[], [], 1⟩ "u1" 0).fst).connection_logs) "s1" = []
    ∧ ((onDisconnect (onConnection ⟨[], [], 1⟩ "u1" 0).fst "u1" "s1" 9 []
          false).fst).connection_logs = [] := by
  refine ⟨?_, by decide, by decide⟩
  intro db u now
  simp [onConnection]

/-- Claim C5, counterexample: when the `UPDATE connection_logs` promise
rejects, control jumps to the `catch` before `socketRateLimits.delete` runs,
so the rate-limit entry survives the disconnect, and a reconnect with the
same identity inside the old window resumes the stale counter (count 4)
instead of starting a fresh window. -/
theorem c5_eviction_skipped_on_failed_close :
    (onDisconnect ⟨[], [], 1⟩ "u1" "s1" 9 [("u1", ⟨0, 3⟩)] true).snd
      = [("u1", ⟨0, 3⟩)]
    ∧ lookupEntry ((onDisconnect ⟨[], [], 1⟩ "u1" "s1" 9
        [("u1", ⟨0, 3⟩)] true).snd) "u1" = some ⟨0, 3⟩
    ∧ (socketRateLimit 10 60 "u1" 20000
        ((onDisconnect ⟨[], [], 1⟩ "u1" "s1" 9 [("u1", ⟨0, 3⟩)] true).snd)).fst
      = [("u1", ⟨0, 4⟩)] := by
  decide

/-- Claim C5, amended: only when the connection-close ledger write succeeds
does the disconnect path evict the rate-limit entry — the one keyed by the
verified identity — after which a subsequent admission under that key is
admitted with a fresh window of count 1. -/
theorem c5_eviction_on_successful_close (db : Db) (uid sid : String)
    (now : Nat) (limits : List (String × SocketEntry))
    (points duration t : Nat) :
    lookupEntry ((onDisconnect db uid sid now limits false).snd) uid = none
    ∧ (socketRateLimit points duration uid t
        ((onDisconnect db uid sid now limits false).snd)).snd = .next
    ∧ lookupEntry ((socketRateLimit points duration uid t
        ((onDisconnect db uid sid now limits false).snd)).fst) uid
      = some ⟨t, 1⟩ := by
  have h1 : lookupEntry ((onDisconnect db uid sid now limits false).snd) uid
      = none := by
    simp [onDisconnect, lookupEntry_eraseEntry_self]
  refine ⟨h1, ?_, ?_⟩
  · simp [socketRateLimit, h1]
  · simp [socketRateLimit, h1, lookupEntry_setEntry_self]

/-- Claim C2, counterexample: a send request on an active connection is not
rate limited.  With the identity's window entry already at the ceiling
(count 10 of 10, inside the 60 s window — a state the middleware would
deny), the `send_notification` handler still publishes to the recipient's
channel, still writes the ledger row, acknowledges success, and leaves the
rate-limit store untouched. -/
theorem c2_send_bypasses_rate_limiter :
    (socketRateLimit 10 60 "u1" 1000 [("u1", ⟨0, 10⟩)]).snd
      = .err "Too many requests, please try again later"
    ∧ (handleSendEvent [("u1", ⟨0, 10⟩)] ⟨[], [], 1⟩ "u1" "s1"
        (some "u2") (some "hi") 1000 false).fst = [("u1", ⟨0, 10⟩)]
    ∧ (handleSendEvent [("u1", ⟨0, 10⟩)] ⟨[], [], 1⟩ "u1" "s1"
        (some "u2") (some "hi") 1000 false).snd.snd.fst
      = [Effect.emitToChannel "user_u2" ⟨"hi", "u1", 1000⟩,
         Effect.insertNotification ⟨1, "u1", "u2", "hi", some "s1", 1000, none⟩]
    ∧ (handleSendEvent [("u1", ⟨0, 10⟩)] ⟨[], [], 1⟩ "u1" "s1"
        (some "u2") (some "hi") 1000 false).snd.snd.snd = Ack.successAck := by
  decide

/-- Claim C2, amended: the per-identity rate limiter runs only as connection
admission middleware: a denial there refuses the connection (so no ledger
write or publish can originate from it), while a send request on an
already-active connection is processed without consulting or modifying the
rate-limit store at all. -/
theorem c2_limiter_gates_admission_only (points duration : Nat) (uid : String)
    (authId : Option String) (sid : String) (now : Nat)
    (limits limits' : List (String × SocketEntry)) (msg : String)
    (db : Db) (sender sid2 : String) (recipientId message : Option String)
    (t : Nat) (insertFails : Bool)
    (hdeny : socketRateLimit points duration (rateLimitKey authId sid) now limits
        = (limits', .err msg)) :
    connectionAdmission points duration (some uid) authId sid now limits
      = (limits', none)
    ∧ (handleSendEvent limits db sender sid2 recipientId message t
        insertFails).fst = limits
    ∧ (handleSendEvent limits db sender sid2 recipientId message t
        insertFails).snd
      = sendNotification db sender sid2 recipientId message t insertFails := by
  refine ⟨?_, rfl, rfl⟩
  simp [connectionAdmission, hdeny]

/-- Claim C2, witness: the amended theorem at a concrete over-limit state. -/
theorem c2_limiter_gates_admission_only_witness :
    socketRateLimit 10 60 (rateLimitKey (some "u1") "s1") 1000 [("u1", ⟨0, 10⟩)]
      = ([("u1", ⟨0, 10⟩)], .err "Too many requests, please try again later")
    ∧ connectionAdmission 10 60 (some "u1") (some "u1") "s1" 1000
        [("u1", ⟨0, 10⟩)] = ([("u1", ⟨0, 10⟩)], none) :=
  ⟨by decide,
   (c2_limiter_gates_admission_only 10 60 "u1" (some "u1") "s1" 1000
      [("u1", ⟨0, 10⟩)] [("u1", ⟨0, 10⟩)]
      "Too many requests, please try again later"
      ⟨[], [], 1⟩ "u1" "s1" (some "u2") (some "hi") 5 false (by decide)).1⟩

/-- Claim C7, counterexample: the HTTP rate limiter is mounted only at
`/api/` (app.js:69), and `/webhook/notify` is not under that mount.  A
webhook request from an origin whose window is already exhausted (count 100
of 100, inside the window — a state the limiter would deny with
`retryAfter` 900) still reaches the webhook handler: the response is the
handler's own 400 validation error, not 429, and the limiter store is
neither consulted nor updated. -/
theorem c7_webhook_bypasses_http_limiter :
    httpLimiterApplies "/webhook/notify" = false
    ∧ (httpRateLimiter 15 100 "9.9.9.9" 5 [("9.9.9.9", ⟨100, 900000⟩)]).snd
      = .tooMany 900
    ∧ (handleHttpRequest 15 100 "secret" ⟨[], [], 1⟩
        [("9.9.9.9", ⟨100, 900000⟩)] "9.9.9.9" "/webhook/notify"
        ⟨some "abcd1234", some "hi", some "wrong"⟩ 5 false).fst
      = [("9.9.9.9", ⟨100, 900000⟩)]
    ∧ (handleHttpRequest 15 100 "secret" ⟨[], [], 1⟩
        [("9.9.9.9", ⟨100, 900000⟩)] "9.9.9.9" "/webhook/notify"
        ⟨some "abcd1234", some "hi", some "wrong"⟩ 5 false).snd.snd.snd
      = HttpResponse.validation400 ["apiKey: Invalid value"] := by
  decide

/-- Claim C7, amended: the per-origin HTTP rate limiter gates only requests
whose path falls under its `/api/` mount, where it runs before the route
handler and a denial short-circuits with 429 and no effects; requests to
`/webhook/notify` and `/health` bypass it entirely, leaving the limiter
store unchanged. -/
theorem c7_limiter_mounted_on_api_only (w m : Nat) (key : String) (db : Db)
    (limits limits2 : List (String × HttpEntry)) (ip : String)
    (b : WebhookBody) (now : Nat) (fails : Bool) (path : String) (ra : Nat)
    (happ : httpLimiterApplies path = true)
    (hdeny : httpRateLimiter w m ip now limits = (limits2, .tooMany ra)) :
    (handleHttpRequest w m key db limits ip "/webhook/notify" b now fails).fst
      = limits
    ∧ (handleHttpRequest w m key db limits ip "/webhook/notify" b now
        fails).snd.snd.snd = (webhookNotify key db b now fails).snd.snd
    ∧ (handleHttpRequest w m key db limits ip "/health" b now fails).fst
      = limits
    ∧ (handleHttpRequest w m key db limits ip "/health" b now fails).snd.snd.snd
      = .health200
    ∧ httpLimiterApplies "/api/messages" = true
    ∧ handleHttpRequest w m key db limits ip path b now fails
      = (limits2, db, [], .tooMany429 ra) := by
  have h1 : httpLimiterApplies "/webhook/notify" = false := by decide
  have h2 : httpLimiterApplies "/health" = false := by decide
  have e1 : ("/webhook/notify" == "/webhook/notify") = true := by decide
  have e2 : ("/health" == "/webhook/notify") = false := by decide
  have e3 : ("/health" == "/health") = true := by decide
  refine ⟨?_, ?_, ?_, ?_, by decide, ?_⟩
  · simp [handleHttpRequest, h1, e1]
  · simp [handleHttpRequest, h1, e1]
  · simp [handleHttpRequest, h2, e2, e3]
  · simp [handleHttpRequest, h2, e2, e3]
  · simp [handleHttpRequest, happ, hdeny]

/-- Claim C7, witness: the amended theorem at a concrete denied state under
the `/api/` mount. -/
theorem c7_limiter_mounted_on_api_only_witness :
    httpLimiterApplies "/api/x" = true
    ∧ httpRateLimiter 15 1 "9.9.9.9" 5 [("9.9.9.9", ⟨1, 900000⟩)]
      = ([("9.9.9.9", ⟨1, 900000⟩)], .tooMany 900)
    ∧ handleHttpRequest 15 1 "secret" ⟨[], [], 1⟩ [("9.9.9.9", ⟨1, 900000⟩)]
        "9.9.9.9" "/api/x" ⟨none, none, none⟩ 5 false
      = ([("9.9.9.9", ⟨1, 900000⟩)], ⟨[], [], 1⟩, [], .tooMany429 900) :=
  ⟨by decide, by decide,
   (c7_limiter_mounted_on_api_only 15 1 "secret" ⟨[], [], 1⟩
      [("9.9.9.9", ⟨1, 900000⟩)] [("9.9.9.9", ⟨1, 900000⟩)] "9.9.9.9"
      ⟨none, none, none⟩ 5 false "/api/x" 900 (by decide) (by decide)).2.2.2.2.2⟩

/-- Claim C8, counterexample: on a successful send the code emits first and
inserts second, in both paths.  For a concrete successful
`send_notification` and a concrete successful webhook call, the effect
trace is `[emit, insert]` — the ledger write does not precede the fan-out
emit. -/
theorem c8_emit_precedes_insert :
    (sendNotification ⟨[], [], 1⟩ "u1" "s1" (some "u2") (some "hi") 42
        false).snd.fst
      = [Effect.emitToChannel "user_u2" ⟨"hi", "u1", 42⟩,
         Effect.insertNotification ⟨1, "u1", "u2", "hi", some "s1", 42, none⟩]
    ∧ insertBeforeEmit
        ((sendNotification ⟨[], [], 1⟩ "u1" "s1" (some "u2") (some "hi") 42
          false).snd.fst) = false
    ∧ (sendNotification ⟨[], [], 1⟩ "u1" "s1" (some "u2") (some "hi") 42
        false).snd.snd = Ack.successAck
    ∧ (webhookNotify "k" ⟨[], [], 1⟩ ⟨some "abcd1234", some "hi", some "k"⟩ 7
        false).snd.fst
      = [Effect.emitToChannel "user_abcd1234" ⟨"hi", "system", 7⟩,
         Effect.insertNotification ⟨1, "system", "abcd1234", "hi", none, 7, none⟩]
    ∧ insertBeforeEmit
        ((webhookNotify "k" ⟨[], [], 1⟩ ⟨some "abcd1234", some "hi", some "k"⟩ 7
          false).snd.fst) = false
    ∧ (webhookNotify "k" ⟨[], [], 1⟩ ⟨some "abcd1234", some "hi", some "k"⟩ 7
        false).snd.snd = HttpResponse.success200 := by
  decide

/-- Claim C8, amended: on every successful send — live `send_notification`
or webhook — the handler first emits the push event to the recipient's
channel and then records the notification in the ledger: the effect trace is
exactly `[emitToChannel, insertNotification]`, emit first. -/
theorem c8_effect_order (db db2 : Db) (sender sid r m : String)
    (now now2 : Nat) (cfgKey : String) (b : WebhookBody)
    (hr : r ≠ "") (hm : m ≠ "") (hb : webhookErrors cfgKey b = []) :
    (sendNotification db sender sid (some r) (some m) now false).snd.fst
      = [Effect.emitToChannel ("user_" ++ r) ⟨m, sender, now⟩,
         Effect.insertNotification ⟨db.nextId, sender, r, m, some sid, now, none⟩]
    ∧ (webhookNotify cfgKey db2 b now2 false).snd.fst
      = [Effect.emitToChannel ("user_" ++ b.recipientId.getD "")
            ⟨trimStr (b.message.getD ""), "system", now2⟩,
         Effect.insertNotification
            ⟨db2.nextId, "system", b.recipientId.getD "",
             trimStr (b.message.getD ""), none, now2, none⟩] := by
  constructor
  · simp [sendNotification, falsyStr, hr, hm]
  · have hempty : (webhookErrors cfgKey b).isEmpty = true := by
      rw [hb]; rfl
    simp [webhookNotify, hempty]

/-- Claim C8, witness: the amended theorem at concrete successful sends. -/
theorem c8_effect_order_witness :
    ("u2" : String) ≠ "" ∧ ("hi" : String) ≠ ""
    ∧ webhookErrors "k" ⟨some "abcd1234", some "hi", some "k"⟩ = []
    ∧ (sendNotification ⟨[], [], 1⟩ "u1" "s1" (some "u2") (some "hi") 42
        false).snd.fst
      = [Effect.emitToChannel ("user_" ++ "u2") ⟨"hi", "u1", 42⟩,
         Effect.insertNotification ⟨1, "u1", "u2", "hi", some "s1", 42, none⟩] :=
  ⟨by decide, by decide, by decide,
   (c8_effect_order ⟨[], [], 1⟩ ⟨[], [], 1⟩ "u1" "s1" "u2" "hi" 42 7 "k"
      ⟨some "abcd1234", some "hi", some "k"⟩
      (by decide) (by decide) (by decide)).1⟩

/-- Claim C9: a webhook request with a wrong (or missing) `apiKey`, a
malformed `recipientId`, or an over-length `message` yields the 400
structured validation-error response, leaves the database untouched, and
performs no effects — neither a ledger write nor a push emit. -/
theorem c9_webhook_validation_failure (cfgApiKey : String) (db : Db)
    (b : WebhookBody) (now : Nat) (insertFails : Bool)
    (h : (∀ k, b.apiKey = some k → k ≠ cfgApiKey)
       ∨ (∀ r, b.recipientId = some r →
            ¬(isAlphanumericStr r = true ∧ 8 ≤ r.length ∧ r.length ≤ 64))
       ∨ (∀ m, b.message = some m → ¬ (trimStr m).length ≤ 500)) :
    webhookErrors cfgApiKey b ≠ []
    ∧ webhookNotify cfgApiKey db b now insertFails
        = (db, [], .validation400 (webhookErrors cfgApiKey b)) := by
  have hne : webhookErrors cfgApiKey b ≠ [] := by
    rcases h with hk | hr | hm
    · cases hak : b.apiKey with
      | none => simp [webhookErrors, hak]
      | some k => simp [webhookErrors, hak, hk k hak]
    · cases har : b.recipientId with
      | none => simp [webhookErrors, har]
      | some r =>
          have hbad := hr r har
          by_cases h1 : isAlphanumericStr r = true
          · by_cases h2 : 8 ≤ r.length
            · have h3 : ¬ r.length ≤ 64 := fun hc => hbad ⟨h1, h2, hc⟩
              simp [webhookErrors, har, h1, h2, h3]
            · simp [webhookErrors, har, h1, h2]
          · simp [webhookErrors, har, h1]
    · cases ham : b.message with
      | none => simp [webhookErrors, ham]
      | some m => simp [webhookErrors, ham, hm m ham]
  refine ⟨hne, ?_⟩
  have hempty : (webhookErrors cfgApiKey b).isEmpty = false := by
    cases hcase : webhookErrors cfgApiKey b with
    | nil => exact absurd hcase hne
    | cons a l => rfl
  simp [webhookNotify, hempty]

/-- Claim C9, witness: a concrete webhook call with a wrong `apiKey` is
rejected with 400 and no effects. -/
theorem c9_webhook_validation_failure_witness :
    webhookErrors "secret" ⟨some "abcd1234", some "hi", some "wrong"⟩ ≠ []
    ∧ webhookNotify "secret" ⟨[], [], 1⟩
        ⟨some "abcd1234", some "hi", some "wrong"⟩ 7 false
      = (⟨[], [], 1⟩, [],
         .validation400 (webhookErrors "secret"
            ⟨some "abcd1234", some "hi", some "wrong"⟩)) :=
  c9_webhook_validation_failure "secret" ⟨[], [], 1⟩
    ⟨some "abcd1234", some "hi", some "wrong"⟩ 7 false
    (Or.inl (fun k hk => by cases hk; decide))

/-- Claim C1: on a recipient's connection, the replay emits exactly the
rows of that recipient that have no delivery timestamp, one copy each (their
ids are distinct), in table (creation) order; each emitted row is marked
delivered by exactly one `UPDATE` call, and a second connection by the same
recipient replays nothing. -/
theorem c1_offline_replay_exactly_once (db : Db) (r : String) (now now2 : Nat)
    (hids : (db.notifications.map (·.id)).Nodup)
    (hord : db.notifications.Pairwise (fun a b => a.created_at ≤ b.created_at)) :
    emittedRows (onConnection db r now).snd = fetchUndelivered db.notifications r
    ∧ (emittedRows (onConnection db r now).snd).Pairwise
        (fun a b => a.created_at ≤ b.created_at)
    ∧ ((emittedRows (onConnection db r now).snd).map (·.id)).Nodup
    ∧ updateCalls (onConnection db r now).snd
        = (emittedRows (onConnection db r now).snd).map (·.id)
    ∧ (∀ n ∈ emittedRows (onConnection db r now).snd,
        { n with delivered_at := some now } ∈
          ((onConnection db r now).fst).notifications)
    ∧ emittedRows (onConnection ((onConnection db r now).fst) r now2).snd
      = [] := by
  refine ⟨onConnection_emitted db r now, ?_, ?_, ?_, ?_, ?_⟩
  · rw [onConnection_emitted]
    exact hord.filter _
  · rw [onConnection_emitted]
    exact hids.sublist ((List.filter_sublist _).map _)
  · rw [onConnection_updateCalls, onConnection_emitted]
  · intro n hn
    rw [onConnection_emitted] at hn
    rw [onConnection_notifications]
    have hn' : n ∈ db.notifications := (List.mem_filter.mp hn).1
    have hid : n.id ∈ (fetchUndelivered db.notifications r).map (·.id) :=
      List.mem_map.mpr ⟨n, hn, rfl⟩
    simp only [markAll]
    exact List.mem_map.mpr ⟨n, hn', by simp [hid]⟩
  · rw [onConnection_emitted, fetchUndelivered_after_onConnection]

/-- Claim C1, witness: the theorem at a concrete table holding two
undelivered rows and one already-delivered row for the recipient. -/
theorem c1_offline_replay_exactly_once_witness :
    ((([⟨1, "a", "u2", "hi", some "s0", 3, none⟩,
        ⟨2, "b", "u2", "yo", none, 4, some 9⟩,
        ⟨3, "c", "u2", "zz", none, 5, none⟩] : List Notification).map
          (·.id)).Nodup)
    ∧ emittedRows (onConnection
        ⟨[⟨1, "a", "u2", "hi", some "s0", 3, none⟩,
          ⟨2, "b", "u2", "yo", none, 4, some 9⟩,
          ⟨3, "c", "u2", "zz", none, 5, none⟩], [], 4⟩ "u2" 100).snd
      = [⟨1, "a", "u2", "hi", some "s0", 3, none⟩,
         ⟨3, "c", "u2", "zz", none, 5, none⟩]
    ∧ emittedRows (onConnection
        (onConnection
          ⟨[⟨1, "a", "u2", "hi", some "s0", 3, none⟩,
            ⟨2, "b", "u2", "yo", none, 4, some 9⟩,
            ⟨3, "c", "u2", "zz", none, 5, none⟩], [], 4⟩ "u2" 100).fst
        "u2" 200).snd = [] := by
  have h := c1_offline_replay_exactly_once
    ⟨[⟨1, "a", "u2", "hi", some "s0", 3, none⟩,
      ⟨2, "b", "u2", "yo", none, 4, some 9⟩,
      ⟨3, "c", "u2", "zz", none, 5, none⟩], [], 4⟩ "u2" 100 200
    (by decide) (by decide)
  refine ⟨by decide, ?_, h.2.2.2.2.2⟩
  rw [h.1]
  decide

/-- Claim C10: rows created by the live `send_notification` path and by the
webhook path are stored with the delivery timestamp absent, neither path
issues any `UPDATE` marking a row delivered (even though the push event was
emitted to connected recipients), and the new row is therefore emitted again
by the replay on the recipient's next connection. -/
theorem c10_send_paths_store_undelivered (db db2 : Db)
    (sender sid r m : String) (now now2 t t2 : Nat) (cfgKey : String)
    (b : WebhookBody) (hr : r ≠ "") (hm : m ≠ "")
    (hb : webhookErrors cfgKey b = []) :
    (sendNotification db sender sid (some r) (some m) now false).fst.notifications
      = db.notifications ++ [⟨db.nextId, sender, r, m, some sid, now, none⟩]
    ∧ updateCalls
        (sendNotification db sender sid (some r) (some m) now false).snd.fst = []
    ∧ (⟨db.nextId, sender, r, m, some sid, now, none⟩ : Notification) ∈
        emittedRows (onConnection
          (sendNotification db sender sid (some r) (some m) now false).fst r t).snd
    ∧ (webhookNotify cfgKey db2 b now2 false).fst.notifications
      = db2.notifications ++
          [⟨db2.nextId, "system", b.recipientId.getD "",
            trimStr (b.message.getD ""), none, now2, none⟩]
    ∧ updateCalls (webhookNotify cfgKey db2 b now2 false).snd.fst = []
    ∧ (⟨db2.nextId, "system", b.recipientId.getD "",
          trimStr (b.message.getD ""), none, now2, none⟩ : Notification) ∈
        emittedRows (onConnection (webhookNotify cfgKey db2 b now2 false).fst
          (b.recipientId.getD "") t2).snd := by
  have hsend : sendNotification db sender sid (some r) (some m) now false
      = ({ db with
            notifications := db.notifications ++
              [⟨db.nextId, sender, r, m, some sid, now, none⟩],
            nextId := db.nextId + 1 },
         [Effect.emitToChannel ("user_" ++ r) ⟨m, sender, now⟩,
          Effect.insertNotification ⟨db.nextId, sender, r, m, some sid, now, none⟩],
         Ack.successAck) := by
    simp [sendNotification, falsyStr, hr, hm]
  have hempty : (webhookErrors cfgKey b).isEmpty = true := by rw [hb]; rfl
  have hweb : webhookNotify cfgKey db2 b now2 false
      = ({ db2 with
            notifications := db2.notifications ++
              [⟨db2.nextId, "system", b.recipientId.getD "",
                trimStr (b.message.getD ""), none, now2, none⟩],
            nextId := db2.nextId + 1 },
         [Effect.emitToChannel ("user_" ++ b.recipientId.getD "")
            ⟨trimStr (b.message.getD ""), "system", now2⟩,
          Effect.insertNotification
            ⟨db2.nextId, "system", b.recipientId.getD "",
             trimStr (b.message.getD ""), none, now2, none⟩],
         HttpResponse.success200) := by
    simp [webhookNotify, hempty]
  refine ⟨by rw [hsend], by rw [hsend]; rfl, ?_, by rw [hweb], by rw [hweb]; rfl, ?_⟩
  · rw [onConnection_emitted, hsend]
    refine List.mem_filter.mpr ⟨List.mem_append_right _ (by simp), by simp⟩
  · rw [onConnection_emitted, hweb]
    refine List.mem_filter.mpr ⟨List.mem_append_right _ (by simp), by simp⟩

/-- Claim C10, witness: the theorem at a concrete live send and webhook
call; the freshly inserted rows are replayed on the recipients' next
connections. -/
theorem c10_send_paths_store_undelivered_witness :
    ("u2" : String) ≠ "" ∧ ("hi" : String) ≠ ""
    ∧ webhookErrors "k" ⟨some "abcd1234", some "ok", some "k"⟩ = []
    ∧ (⟨1, "u1", "u2", "hi", some "s1", 42, none⟩ : Notification) ∈
        emittedRows (onConnection
          (sendNotification ⟨[], [], 1⟩ "u1" "s1" (some "u2") (some "hi") 42
            false).fst "u2" 50).snd :=
  ⟨by decide, by decide, by decide,
   (c10_send_paths_store_undelivered ⟨[], [], 1⟩ ⟨[], [], 1⟩ "u1" "s1" "u2"
      "hi" 42 7 50 60 "k" ⟨some "abcd1234", some "ok", some "k"⟩
      (by decide) (by decide) (by decide)).2.2.1⟩

lemma httpRun_from_entry (w m : Nat) (ip : String) (t0 : Nat) :
    ∀ (ts : List Nat) (c : Nat),
      (∀ t ∈ ts, t0 ≤ t ∧ t ≤ t0 + w * 60 * 1000) →
      ∀ i, i < ts.length →
        (c + i < m →
          ((httpRun w m ip [(ip, ⟨c, t0 + w * 60 * 1000⟩)] ts).snd)[i]?
            = some .next)
        ∧ (m ≤ c + i →
          ∃ ra, ((httpRun w m ip [(ip, ⟨c, t0 + w * 60 * 1000⟩)] ts).snd)[i]?
              = some (.tooMany ra) ∧ ra ≤ w * 60) := by
  intro ts
  induction ts with
  | nil =>
      intro c _ i hi
      simp at hi
  | cons t ts ih =>
      intro c hts i hi
      obtain ⟨ht1, ht2⟩ := hts t (by simp)
      have hts' : ∀ t' ∈ ts, t0 ≤ t' ∧ t' ≤ t0 + w * 60 * 1000 :=
        fun t' h => hts t' (by simp [h])
      have hlook : lookupEntry [(ip, (⟨c, t0 + w * 60 * 1000⟩ : HttpEntry))] ip
          = some ⟨c, t0 + w * 60 * 1000⟩ := by
        simp [lookupEntry]
      have hnr : ¬ (t0 + w * 60 * 1000 < t) := by omega
      by_cases hc : m ≤ c
      · have hstep : httpRateLimiter w m ip t [(ip, ⟨c, t0 + w * 60 * 1000⟩)]
            = ([(ip, ⟨c, t0 + w * 60 * 1000⟩)],
               .tooMany ((t0 + w * 60 * 1000 - t + 999) / 1000)) := by
          simp [httpRateLimiter, hlook, hnr, hc]
        have hbound : (t0 + w * 60 * 1000 - t + 999) / 1000 ≤ w * 60 := by
          have h2 : (t0 + w * 60 * 1000 - t + 999) / 1000
              ≤ (w * 60 * 1000 + 999) / 1000 :=
            Nat.div_le_div_right (by omega)
          have h3 : w * 60 * 1000 + 999 = 1000 * (w * 60) + 999 := by ring
          have h4 : (1000 * (w * 60) + 999) / 1000 = w * 60 + 999 / 1000 :=
            Nat.mul_add_div (by norm_num) _ _
          have h5 : (w * 60 * 1000 + 999) / 1000 = w * 60 := by
            rw [h3, h4, Nat.div_eq_of_lt (by norm_num)]
            omega
          rw [h5] at h2
          exact h2
        cases i with
        | zero =>
            refine ⟨fun h => absurd h (by omega),
              fun _ => ⟨(t0 + w * 60 * 1000 - t + 999) / 1000, ?_, hbound⟩⟩
            simp [httpRun, hstep]
        | succ i' =>
            have hi' : i' < ts.length := by
              simp at hi
              omega
            have hrec := ih c hts' i' hi'
            refine ⟨fun h => absurd h (by omega), fun h => ?_⟩
            obtain ⟨ra, hra, hb⟩ := hrec.2 (by omega)
            exact ⟨ra, by simpa [httpRun, hstep] using hra, hb⟩
      · have hstep : httpRateLimiter w m ip t [(ip, ⟨c, t0 + w * 60 * 1000⟩)]
            = ([(ip, ⟨c + 1, t0 + w * 60 * 1000⟩)], .next) := by
          simp [httpRateLimiter, hlook, hnr, hc, setEntry]
        cases i with
        | zero =>
            exact ⟨fun _ => by simp [httpRun, hstep],
              fun h => absurd h (by omega)⟩
        | succ i' =>
            have hi' : i' < ts.length := by
              simp at hi
              omega
            have hrec := ih (c + 1) hts' i' hi'
            constructor
            · intro h
              have := hrec.1 (by omega)
              simpa [httpRun, hstep] using this
            · intro h
              obtain ⟨ra, hra, hb⟩ := hrec.2 (by omega)
              exact ⟨ra, by simpa [httpRun, hstep] using hra, hb⟩

lemma socketRun_from_entry (p d : Nat) (uid : String) (t0 : Nat) :
    ∀ (ts : List Nat) (c : Nat),
      (∀ t ∈ ts, t0 ≤ t ∧ t ≤ t0 + d * 1000) →
      ∀ i, i < ts.length →
        (c + i < p →
          ((socketRun p d uid [(uid, ⟨t0, c⟩)] ts).snd)[i]? = some .next)
        ∧ (p ≤ c + i →
          ((socketRun p d uid [(uid, ⟨t0, c⟩)] ts).snd)[i]?
            = some (.err "Too many requests, please try again later")) := by
  intro ts
  induction ts with
  | nil =>
      intro c _ i hi
      simp at hi
  | cons t ts ih =>
      intro c hts i hi
      obtain ⟨ht1, ht2⟩ := hts t (by simp)
      have hts' : ∀ t' ∈ ts, t0 ≤ t' ∧ t' ≤ t0 + d * 1000 :=
        fun t' h => hts t' (by simp [h])
      have hlook : lookupEntry [(uid, (⟨t0, c⟩ : SocketEntry))] uid
          = some ⟨t0, c⟩ := by
        simp [lookupEntry]
      have hnr : ¬ (d * 1000 < t - t0) := by omega
      by_cases hc : p ≤ c
      · have hstep : socketRateLimit p d uid t [(uid, ⟨t0, c⟩)]
            = ([(uid, ⟨t0, c⟩)],
               .err "Too many requests, please try again later") := by
          simp [socketRateLimit, hlook, hnr, hc]
        cases i with
        | zero =>
            refine ⟨fun h => absurd h (by omega), fun _ => ?_⟩
            simp [socketRun, hstep]
        | succ i' =>
            have hi' : i' < ts.length := by
              simp at hi
              omega
            have hrec := ih c hts' i' hi'
            refine ⟨fun h => absurd h (by omega), fun h => ?_⟩
            have := hrec.2 (by omega)
            simpa [socketRun, hstep] using this
      · have hstep : socketRateLimit p d uid t [(uid, ⟨t0, c⟩)]
            = ([(uid, ⟨t0, c + 1⟩)], .next) := by
          simp [socketRateLimit, hlook, hnr, hc, setEntry]
        cases i with
        | zero =>
            exact ⟨fun _ => by simp [socketRun, hstep],
              fun h => absurd h (by omega)⟩
        | succ i' =>
            have hi' : i' < ts.length := by
              simp at hi
              omega
            have hrec := ih (c + 1) hts' i' hi'
            constructor
            · intro h
              have := hrec.1 (by omega)
              simpa [socketRun, hstep] using this
            · intro h
              have := hrec.2 (by omega)
              simpa [socketRun, hstep] using this

/-- Claim C6, counterexample: the socket limiter's denial carries no
remaining-time value.  Two over-limit states whose remaining window times
differ (59 s and 10 s left of a 60 s window started at 0) produce the very
same constant denial — `next(new Error("Too many requests, please try again
later"))` — so no `retryAfter` bound can be read off the denial, contrary to
the claim that both limiters deny with a remaining-time value at most the
window duration. -/
theorem c6_socket_denial_has_no_retry_after :
    (socketRateLimit 10 60 "u" 1000 [("u", ⟨0, 10⟩)]).snd
      = .err "Too many requests, please try again later"
    ∧ (socketRateLimit 10 60 "u" 50000 [("u", ⟨0, 10⟩)]).snd
      = (socketRateLimit 10 60 "u" 1000 [("u", ⟨0, 10⟩)]).snd
    ∧ (0 + 60 * 1000) - 1000 ≠ (0 + 60 * 1000) - 50000 := by
  decide

/-- Claim C6, amended: starting from an empty store, within a window of
length `duration` opened by the first admission, both limiters admit
exactly `ceiling` requests — request `i` (0-based) succeeds iff `i <
ceiling` — and deny every further request in the window; the HTTP limiter's
denial carries `retryAfter ≤ window` (in seconds, window `w` configured in
minutes), while the socket limiter's denial is the constant error message
with no remaining-time value. -/
theorem c6_window_admits_exactly_ceiling :
    (∀ (w m : Nat) (ip : String) (t0 : Nat) (ts : List Nat),
      1 ≤ m →
      (∀ t ∈ ts, t0 ≤ t ∧ t ≤ t0 + w * 60 * 1000) →
      ∀ i, i < (t0 :: ts).length →
        ((i < m → ((httpRun w m ip [] (t0 :: ts)).snd)[i]? = some .next)
         ∧ (m ≤ i → ∃ ra, ((httpRun w m ip [] (t0 :: ts)).snd)[i]?
              = some (.tooMany ra) ∧ ra ≤ w * 60)))
    ∧ (∀ (p d : Nat) (uid : String) (t0 : Nat) (ts : List Nat),
      1 ≤ p →
      (∀ t ∈ ts, t0 ≤ t ∧ t ≤ t0 + d * 1000) →
      ∀ i, i < (t0 :: ts).length →
        ((i < p → ((socketRun p d uid [] (t0 :: ts)).snd)[i]? = some .next)
         ∧ (p ≤ i → ((socketRun p d uid [] (t0 :: ts)).snd)[i]?
              = some (.err "Too many requests, please try again later")))) := by
  constructor
  · intro w m ip t0 ts hm hts i hi
    have hstep0 : httpRateLimiter w m ip t0 []
        = ([(ip, ⟨1, t0 + w * 60 * 1000⟩)], .next) := by
      simp [httpRateLimiter, lookupEntry, setEntry]
    cases i with
    | zero =>
        exact ⟨fun _ => by simp [httpRun, hstep0],
          fun h => absurd h (by omega)⟩
    | succ i' =>
        have hi' : i' < ts.length := by
          simp at hi
          omega
        have hrec := httpRun_from_entry w m ip t0 ts 1 hts i' hi'
        constructor
        · intro h
          have := hrec.1 (by omega)
          simpa [httpRun, hstep0] using this
        · intro h
          obtain ⟨ra, hra, hb⟩ := hrec.2 (by omega)
          exact ⟨ra, by simpa [httpRun, hstep0] using hra, hb⟩
  · intro p d uid t0 ts hp hts i hi
    have hstep0 : socketRateLimit p d uid t0 []
        = ([(uid, ⟨t0, 1⟩)], .next) := by
      simp [socketRateLimit, lookupEntry, setEntry]
    cases i with
    | zero =>
        exact ⟨fun _ => by simp [socketRun, hstep0],
          fun h => absurd h (by omega)⟩
    | succ i' =>
        have hi' : i' < ts.length := by
          simp at hi
          omega
        have hrec := socketRun_from_entry p d uid t0 ts 1 hts i' hi'
        constructor
        · intro h
          have := hrec.1 (by omega)
          simpa [socketRun, hstep0] using this
        · intro h
          have := hrec.2 (by omega)
          simpa [socketRun, hstep0] using this

/-- Claim C6, witness: the amended theorem at window 1 minute / ceiling 2
for HTTP (third request denied with `retryAfter ≤ 60`) and ceiling 2 /
60 s for the socket scope (third admission denied with the constant
message). -/
theorem c6_window_admits_exactly_ceiling_witness :
    ((httpRun 1 2 "ip" [] [2, 3, 4]).snd)[1]? = some .next
    ∧ (∃ ra, ((httpRun 1 2 "ip" [] [2, 3, 4]).snd)[2]?
        = some (.tooMany ra) ∧ ra ≤ 1 * 60)
    ∧ ((socketRun 2 60 "u" [] [2, 3, 4]).snd)[2]?
        = some (.err "Too many requests, please try again later") := by
  refine ⟨?_, ?_, ?_⟩
  · exact (c6_window_admits_exactly_ceiling.1 1 2 "ip" 2 [3, 4] (by decide)
      (by decide) 1 (by decide)).1 (by decide)
  · exact (c6_window_admits_exactly_ceiling.1 1 2 "ip" 2 [3, 4] (by decide)
      (by decide) 2 (by decide)).2 (by decide)
  · exact (c6_window_admits_exactly_ceiling.2 2 60 "u" 2 [3, 4] (by decide)
      (by decide) 2 (by decide)).2 (by decide)

end NotifServer
